import Mathlib

/-!
Verification of the client-side refresh/update loop served by
`WebserverHTML.h` (the `PAGE_MAIN` template of the 474-Final-Project
repository).  The only executable logic in the repository is the
JavaScript `fetchData` function (lines 54-75 of `WebserverHTML.h`)
together with the `setInterval(fetchData, 1000)` timer (line 78) and the
static markup/CSS it manipulates.  We give a shallow embedding of that
logic and prove/refute the specification's claims about it.
-/

namespace Webserver

/-- The three element texts the script reads from the parsed response
document: `doc.getElementById(id).innerText` for the ids `temperature`,
`distance`, `alertMessage` (lines 61, 62, 65).  `none` models
`getElementById` returning `null` (element absent), in which case the
`.innerText` access throws a `TypeError`. -/
structure ParsedDoc where
  temperature : Option String
  distance : Option String
  alertMessage : Option String
deriving DecidableEq, Repr

/-- The live page's three display regions: the `innerText` of the
`#temperature` and `#distance` spans (lines 89-90), and the `innerText`
and `style.display` of the `#alertBox` div (line 85).  These are the
only pieces of the live DOM `fetchData` writes. -/
structure DisplayState where
  temperature : String
  distance : String
  alertText : String
  alertDisplay : String
deriving DecidableEq, Repr

/-- A single DOM write performed by the `.then` callback of `fetchData`. -/
inductive DomWrite where
  | setTemperature (v : String)
  | setDistance (v : String)
  | setAlertText (v : String)
  | setAlertDisplay (v : String)
deriving DecidableEq, Repr

/-- Modelled from the spec: JavaScript's `String.prototype.trim`
(line 67 of the source) is environment functionality — it removes
whitespace from both ends of a string.  (JS trims the full Unicode
white-space class; the values this page handles are ASCII, for which
`Char.isWhitespace` agrees.) -/
def jsTrim (s : String) : String :=
  ⟨((s.data.dropWhile Char.isWhitespace).reverse.dropWhile
      Char.isWhitespace).reverse⟩

/-- The body of the second `.then` callback of `fetchData`
(lines 58-72), applied to the already-parsed document.  Returns the
resulting display state, the list of DOM writes performed in order, and
whether a `TypeError` was thrown (a missing element: `getElementById`
returned `null` and `.innerText` was accessed on it).  The statement
order of the source is preserved: the temperature copy (line 61), then
the distance copy (line 62), then the alert logic (lines 64-72); a throw
abandons the remaining statements but keeps the writes already made.
Note line 68 assigns the untrimmed `newAlertMessage`; `trim` is used
only in the emptiness test of line 67. -/
def updateFromDoc (doc : ParsedDoc) (s : DisplayState) :
    DisplayState × List DomWrite × Bool :=
  match doc.temperature with
  | none => (s, [], true)
  | some t =>
    let s1 := { s with temperature := t }
    match doc.distance with
    | none => (s1, [.setTemperature t], true)
    | some d =>
      let s2 := { s1 with distance := d }
      match doc.alertMessage with
      | none => (s2, [.setTemperature t, .setDistance d], true)
      | some m =>
        if jsTrim m ≠ "" then
          ({ s2 with alertText := m, alertDisplay := "block" },
           [.setTemperature t, .setDistance d,
            .setAlertText m, .setAlertDisplay "block"], false)
        else
          ({ s2 with alertDisplay := "none" },
           [.setTemperature t, .setDistance d, .setAlertDisplay "none"], false)

/-- Modelled from the spec: the browser primitives `DOMParser`,
`Document.getElementById`, and the `innerText` getter are environment
functionality, not repository code.  For the flat single-text elements
this page's script reads, an element with a given id contributes the
text between its opening tag's closing `>` and the next `<`; we locate
the first occurrence of the attribute text `id="<id>"`.  Absence of the
attribute (or of a closing `>`) models `getElementById` returning
`null`.  `parseFromString(html, "text/html")` itself never throws: any
body yields a document, possibly lacking the looked-up elements. -/
def matchesAt : List Char → List Char → Bool
  | [], _ => true
  | _ :: _, [] => false
  | p :: ps, c :: cs => p == c && matchesAt ps cs

/-- The characters following the first occurrence of `pat`, if any. -/
def findAfter (pat : List Char) : List Char → Option (List Char)
  | [] => none
  | c :: cs =>
    if matchesAt pat (c :: cs) then some ((c :: cs).drop pat.length)
    else findAfter pat cs

/-- The characters strictly after the first occurrence of `stop`. -/
def dropThroughChar (stop : Char) : List Char → Option (List Char)
  | [] => none
  | c :: cs => if c == stop then some cs else dropThroughChar stop cs

/-- The characters before the first occurrence of `stop` (or all of them). -/
def takeUntilChar (stop : Char) : List Char → List Char
  | [] => []
  | c :: cs => if c == stop then [] else c :: takeUntilChar stop cs

/-- Modelled from the spec: text lookup by element id on the parsed
response body (see the comment above `matchesAt`). -/
def extractById (body id : String) : Option String :=
  match findAfter ("id=\"" ++ id ++ "\"").data body.data with
  | none => none
  | some rest =>
    match dropThroughChar '>' rest with
    | none => none
    | some afterTag => some ⟨takeUntilChar '<' afterTag⟩

/-- Modelled from the spec: `new DOMParser().parseFromString(html,
"text/html")` followed by the three `getElementById(...).innerText`
reads of lines 61, 62, 65. -/
def parseDoc (body : String) : ParsedDoc :=
  { temperature := extractById body "temperature"
    distance := extractById body "distance"
    alertMessage := extractById body "alertMessage" }

/-- Outcome of the `fetch("/")` promise.  A browser `fetch` rejects only
on transport failure; any completed HTTP exchange resolves with the
response — including non-2xx statuses — and `response.text()` yields its
body. -/
inductive FetchResult where
  | networkError
  | httpResponse (status : Nat) (body : String)
deriving DecidableEq, Repr

/-- Result of one complete refresh cycle: the final display state, the
DOM writes made, and whether the `.catch` handler ran
(`console.error("Error fetching data:", error)`, line 74). -/
structure CycleResult where
  state : DisplayState
  writes : List DomWrite
  logged : Bool
deriving DecidableEq, Repr

/-- One refresh cycle: the `fetchData` function (lines 54-75).  The
script never inspects `response.ok` or `response.status`, so every
completed response's body is parsed and applied identically regardless
of status code.  A rejected fetch, or a `TypeError` thrown inside the
`.then` callback, reaches the trailing `.catch` (line 74), which logs
and does nothing else; `fetchData` being a total function reflects that
no exception escapes the promise chain. -/
def fetchData (r : FetchResult) (s : DisplayState) : CycleResult :=
  match r with
  | .networkError => { state := s, writes := [], logged := true }
  | .httpResponse _ body =>
    match updateFromDoc (parseDoc body) s with
    | (s2, ws, threw) => { state := s2, writes := ws, logged := threw }

/-- Whether the alert banner is visible: its `style.display` is not
`none` (the CSS class `.alert-box` hides it by default, line 40; the
script toggles between `"block"` and `"none"`, lines 69 and 71). -/
def alertVisible (s : DisplayState) : Bool :=
  s.alertDisplay != "none"

/-- The live page's display regions as initially served (body,
lines 81-95): the `#temperature` and `#distance` spans hold the
server-substituted values; the `#alertBox` div (line 85) is empty and
hidden — its class rule `.alert-box` (lines 39-48) sets
`display: none` and the element carries no inline style. -/
def initialDisplay (t d : String) : DisplayState :=
  { temperature := t, distance := d, alertText := "", alertDisplay := "none" }

/-- The time, in milliseconds after the script runs, of the n-th
invocation of `fetchData` by the timer `setInterval(fetchData, 1000)`
(line 78): the interval is 1000 ms and `clearInterval` is never called,
so an invocation exists for every `n`. -/
def tickTime (n : Nat) : Nat := 1000 * (n + 1)

/-- The display state after `n` timer-driven refresh cycles, given the
fetch outcome of each cycle.  Each tick applies `fetchData` to the
then-current state whatever happened before: failed cycles do not stop
the timer. -/
def runCycles (results : Nat → FetchResult) (s0 : DisplayState) :
    Nat → DisplayState
  | 0 => s0
  | n + 1 => (fetchData (results n) (runCycles results s0 n)).state

/-- Position of a write target in the fixed statement order of the
`.then` callback: temperature (line 61), distance (line 62), alert text
(line 68), alert visibility (lines 69/71). -/
def writeRank : DomWrite → Nat
  | .setTemperature _ => 0
  | .setDistance _ => 1
  | .setAlertText _ => 2
  | .setAlertDisplay _ => 3

/-! ### The static template

The segments below are verbatim from the raw string `PAGE_MAIN` of
`WebserverHTML.h` (lines 10-97), split at the three placeholder tokens
and at the landmarks the specification's claims refer to: the
`.alert-box` CSS rule (lines 39-48), the `#alertBox` banner div
(line 85), and the `#alertMessage` div's opening tag (line 94).
Literal braces are written `\x7b`/`\x7d`. -/

def pageA : String :=
  "\n\n<!DOCTYPE html>\n<html lang=\"en\">\n<head>\n    <meta charset=\"UTF-8\">\n    <meta name=\"viewport\" content=\"width=device-width, initial-scale=1.0\">\n    <title>ESP32 Sensor Data</title>\n    <style>\n        /* Page styling */\n        body \x7b\n            font-family: Arial, sans-serif;\n            text-align: center;\n            background-color: #f4f4f4;\n            margin: 0;\n            padding: 50px;\n        \x7d\n        h1 \x7b\n            color: #333;\n        \x7d\n        .data-container \x7b\n            font-size: 1.5em;\n            font-weight: bold;\n            color: #555;\n            margin: 20px 0;\n        \x7d\n        .label \x7b\n            font-weight: bold;\n            color: #222;\n        \x7d\n        "

def cssAlertBoxRule : String :=
  ".alert-box \x7b\n            display: none;\n            color: white;\n            background-color: red;\n            padding: 15px;\n            font-size: 1.2em;\n            font-weight: bold;\n            margin: 20px;\n            border-radius: 5px;\n        \x7d"

def pageB : String :=
  "\n    </style>\n    <script>\n        /**\n         * @brief Fetches updated sensor data from the server and updates the page.\n         */\n        function fetchData() \x7b\n            fetch(\"/\")\n            .then(response => response.text())\n            .then(html => \x7b\n                let parser = new DOMParser();\n                let doc = parser.parseFromString(html, \"text/html\");\n\n                document.getElementById(\"temperature\").innerText = doc.getElementById(\"temperature\").innerText;\n                document.getElementById(\"distance\").innerText = doc.getElementById(\"distance\").innerText;\n                \n                let alertBox = document.getElementById(\"alertBox\");\n                let newAlertMessage = doc.getElementById(\"alertMessage\").innerText;\n\n                if (newAlertMessage.trim() !== \"\") \x7b\n                    alertBox.innerText = newAlertMessage;\n                    alertBox.style.display = \"block\";\n                \x7d else \x7b\n                    alertBox.style.display = \"none\";\n                \x7d\n            \x7d)\n            .catch(error => console.error(\"Error fetching data:\", error));\n        \x7d\n\n        // Update sensor data every second\n        setInterval(fetchData, 1000);\n    </script>\n</head>\n<body>\n    <h1>ESP32 Sensor Data</h1>\n\n    <!-- Alert message box -->\n    "

def alertBoxDiv : String :=
  "<div class=\"alert-box\" id=\"alertBox\"></div>"

def pageC : String :=
  "\n\n    <!-- Display sensor data -->\n    <div class=\"data-container\">\n        <p><span class=\"label\">Temperature:</span> <span id=\"temperature\">"

def pageD : String :=
  "</span> °F</p>\n        <p><span class=\"label\">Distance:</span> <span id=\"distance\">"

def pageE : String :=
  "</span> cm</p>\n    </div>\n\n    <!-- Hidden alert message for script usage -->\n    "

def alertMsgOpen : String :=
  "<div id=\"alertMessage\" style=\"display: none;\">"

def pageF : String :=
  "</div>\n</body>\n</html>\n\n"

/-- A document the server produces from the template: the fixed
segments with the three server-substituted values in the holes.  The
template-substitution mechanism itself is an external collaborator (see
the spec); substituting the values into the three token positions is
what it is specified to do. -/
def renderPage (t d a : String) : String :=
  pageA ++ cssAlertBoxRule ++ pageB ++ alertBoxDiv ++ pageC ++ t ++ pageD ++ d
    ++ pageE ++ alertMsgOpen ++ a ++ pageF

/-- The `PAGE_MAIN` constant itself: the template with its unsubstituted
`\x7b\x7b...\x7d\x7d` placeholder tokens still in the holes. -/
def PAGE_MAIN : String :=
  renderPage "\x7b\x7btemperature\x7d\x7d" "\x7b\x7bdistance\x7d\x7d"
    "\x7b\x7balertMessage\x7d\x7d"

end Webserver

/-! ### Claims -/

namespace Webserver

/-- C5: Given a response body containing
`<span id="temperature">72</span>`, `<span id="distance">15</span>`, and
`<div id="alertMessage">Object too close!</div>`, after one refresh
cycle the displayed temperature is "72", the displayed distance is "15",
and the alert element is visible with text "Object too close!". -/
theorem concrete_scenario (s : DisplayState) :
    (fetchData (.httpResponse 200 "<span id=\"temperature\">72</span><span id=\"distance\">15</span><div id=\"alertMessage\">Object too close!</div>") s).state =
      { temperature := "72", distance := "15",
        alertText := "Object too close!", alertDisplay := "block" } ∧
    alertVisible (fetchData (.httpResponse 200 "<span id=\"temperature\">72</span><span id=\"distance\">15</span><div id=\"alertMessage\">Object too close!</div>") s).state = true ∧
    (fetchData (.httpResponse 200 "<span id=\"temperature\">72</span><span id=\"distance\">15</span><div id=\"alertMessage\">Object too close!</div>") s).logged = false := by
  have hdoc : parseDoc "<span id=\"temperature\">72</span><span id=\"distance\">15</span><div id=\"alertMessage\">Object too close!</div>" =
      ⟨some "72", some "15", some "Object too close!"⟩ := by decide
  have htrim : jsTrim "Object too close!" ≠ "" := by decide
  simp [fetchData, hdoc, updateFromDoc, htrim, alertVisible]

/-- C6 counterexample: a response with non-success status 500 is not
treated as a generic failure — nothing is logged, and the three display
regions are updated from its body, unlike the network-error case. -/
theorem error_status_body_applied :
    (fetchData (.httpResponse 500 "<span id=\"temperature\">99</span><span id=\"distance\">1</span><div id=\"alertMessage\"></div>") (initialDisplay "70" "20")).state.temperature = "99" ∧
    (fetchData (.httpResponse 500 "<span id=\"temperature\">99</span><span id=\"distance\">1</span><div id=\"alertMessage\"></div>") (initialDisplay "70" "20")).logged = false ∧
    fetchData (.httpResponse 500 "<span id=\"temperature\">99</span><span id=\"distance\">1</span><div id=\"alertMessage\"></div>") (initialDisplay "70" "20") ≠
      fetchData .networkError (initialDisplay "70" "20") := by
  decide

/-- C6 amended: `fetchData` never inspects the response's status code:
every completed HTTP response is processed identically, success status
or not; only a rejected fetch (transport failure) takes the
logged-and-ignored generic-failure path. -/
theorem status_code_ignored (st1 st2 : Nat) (body : String) (s : DisplayState) :
    fetchData (.httpResponse st1 body) s = fetchData (.httpResponse st2 body) s ∧
    (fetchData .networkError s).state = s ∧
    (fetchData .networkError s).logged = true := by
  exact ⟨rfl, rfl, rfl⟩

/-- C7: the timer `setInterval(fetchData, 1000)` drives the refresh
cycle at a fixed 1000 ms cadence: the first invocation is 1000 ms after
the script runs and successive invocations are exactly 1000 ms apart;
the interval handle is never passed to `clearInterval`, so the n-th tick
exists for every `n`, and each tick applies `fetchData` to the current
state regardless of how many earlier cycles failed. -/
theorem timer_cadence (results : Nat → FetchResult) (s0 : DisplayState) (n : Nat) :
    tickTime 0 = 1000 ∧
    tickTime (n + 1) = tickTime n + 1000 ∧
    runCycles results s0 (n + 1) =
      (fetchData (results n) (runCycles results s0 n)).state := by
  refine ⟨rfl, ?_, rfl⟩
  simp only [tickTime]
  ring

/-- C10: the refresh cycle's DOM update is deterministic: two runs from
the same fetched outcome and the same prior display state produce the
same resulting display state, writes, and log behaviour; `fetchData`
takes no other inputs. -/
theorem refresh_deterministic (r1 r2 : FetchResult) (s1 s2 : DisplayState)
    (hr : r1 = r2) (hs : s1 = s2) :
    fetchData r1 s1 = fetchData r2 s2 := by
  rw [hr, hs]

/-- Witness for C10 at a concrete fetch outcome and state. -/
theorem refresh_deterministic_witness :
    fetchData .networkError (initialDisplay "70" "20") =
      fetchData .networkError (initialDisplay "70" "20") :=
  refresh_deterministic FetchResult.networkError FetchResult.networkError
    (initialDisplay "70" "20") (initialDisplay "70" "20") rfl rfl

/-- C4: after a successful refresh cycle (a response from which all
three elements parse, so no statement throws and nothing is logged), the
displayed temperature and distance texts are exactly the parsed source
texts — lines 61-62 copy `innerText` verbatim, with no transformation,
rounding, or unit conversion. -/
theorem field_passthrough (status : Nat) (body : String) (s : DisplayState)
    (t d m : String)
    (hdoc : parseDoc body = ⟨some t, some d, some m⟩) :
    (fetchData (.httpResponse status body) s).state.temperature = t ∧
    (fetchData (.httpResponse status body) s).state.distance = d ∧
    (fetchData (.httpResponse status body) s).logged = false := by
  simp only [fetchData, hdoc, updateFromDoc]
  by_cases hm : jsTrim m ≠ "" <;> simp [hm]

/-- Witness for C4: a concrete body whose three elements parse. -/
theorem field_passthrough_witness :
    parseDoc "<span id=\"temperature\">68</span><span id=\"distance\">40</span><div id=\"alertMessage\"></div>" =
      ⟨some "68", some "40", some ""⟩ ∧
    (fetchData (.httpResponse 200 "<span id=\"temperature\">68</span><span id=\"distance\">40</span><div id=\"alertMessage\"></div>") (initialDisplay "70" "20")).state.temperature = "68" ∧
    (fetchData (.httpResponse 200 "<span id=\"temperature\">68</span><span id=\"distance\">40</span><div id=\"alertMessage\"></div>") (initialDisplay "70" "20")).state.distance = "40" ∧
    (fetchData (.httpResponse 200 "<span id=\"temperature\">68</span><span id=\"distance\">40</span><div id=\"alertMessage\"></div>") (initialDisplay "70" "20")).logged = false :=
  ⟨by decide,
   field_passthrough 200 "<span id=\"temperature\">68</span><span id=\"distance\">40</span><div id=\"alertMessage\"></div>" (initialDisplay "70" "20") "68" "40" "" (by decide)⟩

/-- C3: when the parsed `alertMessage` text is empty or whitespace-only,
the cycle takes the `else` branch of line 70: the alert banner's
`style.display` becomes `"none"` (hidden) whatever its prior state, and
its text content is NOT cleared — line 71 is the only statement of that
branch. -/
theorem empty_alert_hides_banner (status : Nat) (body : String)
    (s : DisplayState) (t d m : String)
    (hdoc : parseDoc body = ⟨some t, some d, some m⟩)
    (hm : jsTrim m = "") :
    (fetchData (.httpResponse status body) s).state.alertDisplay = "none" ∧
    alertVisible (fetchData (.httpResponse status body) s).state = false ∧
    (fetchData (.httpResponse status body) s).state.alertText = s.alertText := by
  simp [fetchData, hdoc, updateFromDoc, hm, alertVisible]

/-- Witness for C3: a whitespace-only alert message hides a previously
visible banner and leaves its old text in place. -/
theorem empty_alert_hides_banner_witness :
    jsTrim "   " = "" ∧
    (fetchData (.httpResponse 200 "<span id=\"temperature\">72</span><span id=\"distance\">15</span><div id=\"alertMessage\">   </div>") ⟨"70", "20", "old alert", "block"⟩).state.alertDisplay = "none" ∧
    alertVisible (fetchData (.httpResponse 200 "<span id=\"temperature\">72</span><span id=\"distance\">15</span><div id=\"alertMessage\">   </div>") ⟨"70", "20", "old alert", "block"⟩).state = false ∧
    (fetchData (.httpResponse 200 "<span id=\"temperature\">72</span><span id=\"distance\">15</span><div id=\"alertMessage\">   </div>") ⟨"70", "20", "old alert", "block"⟩).state.alertText = (DisplayState.mk "70" "20" "old alert" "block").alertText :=
  ⟨by decide,
   empty_alert_hides_banner 200 "<span id=\"temperature\">72</span><span id=\"distance\">15</span><div id=\"alertMessage\">   </div>" ⟨"70", "20", "old alert", "block"⟩ "72" "15" "   " (by decide) (by decide)⟩

/-- C2 counterexample: for the alert message `" hot "` — non-empty after
trimming — line 68 assigns the UNTRIMMED text to the banner, so the
banner's text is `" hot "`, not the trimmed `"hot"` the claim requires. -/
theorem alert_text_not_trimmed :
    (parseDoc "<span id=\"temperature\">72</span><span id=\"distance\">15</span><div id=\"alertMessage\"> hot </div>").alertMessage = some " hot " ∧
    jsTrim " hot " ≠ "" ∧
    (fetchData (.httpResponse 200 "<span id=\"temperature\">72</span><span id=\"distance\">15</span><div id=\"alertMessage\"> hot </div>") (initialDisplay "70" "20")).state.alertText ≠ jsTrim " hot " := by
  decide

/-- C2 amended: for a parsed `alertMessage` text that is non-empty after
trimming, the cycle makes the banner visible and sets its text to the
message AS RECEIVED (untrimmed); trimming is used only for the
emptiness test, so the banner text equals the trimmed message exactly
when the message carries no surrounding whitespace. -/
theorem alert_activation_amended (status : Nat) (body : String)
    (s : DisplayState) (t d m : String)
    (hdoc : parseDoc body = ⟨some t, some d, some m⟩)
    (hm : jsTrim m ≠ "") :
    (fetchData (.httpResponse status body) s).state.alertText = m ∧
    (fetchData (.httpResponse status body) s).state.alertDisplay = "block" ∧
    alertVisible (fetchData (.httpResponse status body) s).state = true ∧
    (jsTrim m = m →
      (fetchData (.httpResponse status body) s).state.alertText = jsTrim m) ∧
    (fetchData (.httpResponse status body) s).logged = false := by
  simp [fetchData, hdoc, updateFromDoc, hm, alertVisible]
  exact fun h => h.symm

/-- Witness for C2 (amended) at a concrete padded alert message. -/
theorem alert_activation_amended_witness :
    (fetchData (.httpResponse 200 "<span id=\"temperature\">72</span><span id=\"distance\">15</span><div id=\"alertMessage\"> hot </div>") (initialDisplay "70" "20")).state.alertText = " hot " ∧
    (fetchData (.httpResponse 200 "<span id=\"temperature\">72</span><span id=\"distance\">15</span><div id=\"alertMessage\"> hot </div>") (initialDisplay "70" "20")).state.alertDisplay = "block" ∧
    alertVisible (fetchData (.httpResponse 200 "<span id=\"temperature\">72</span><span id=\"distance\">15</span><div id=\"alertMessage\"> hot </div>") (initialDisplay "70" "20")).state = true ∧
    (jsTrim " hot " = " hot " →
      (fetchData (.httpResponse 200 "<span id=\"temperature\">72</span><span id=\"distance\">15</span><div id=\"alertMessage\"> hot </div>") (initialDisplay "70" "20")).state.alertText = jsTrim " hot ") ∧
    (fetchData (.httpResponse 200 "<span id=\"temperature\">72</span><span id=\"distance\">15</span><div id=\"alertMessage\"> hot </div>") (initialDisplay "70" "20")).logged = false :=
  alert_activation_amended 200 "<span id=\"temperature\">72</span><span id=\"distance\">15</span><div id=\"alertMessage\"> hot </div>" (initialDisplay "70" "20") "72" "15" " hot " (by decide) (by decide)

/-- C1 counterexample: a failing cycle need not preserve all three
display regions.  For a body holding only a temperature element, the
copy of line 61 succeeds before line 62 throws on the missing distance
element, so the cycle is logged as a failure yet the displayed
temperature has already changed from its pre-cycle value. -/
theorem failing_cycle_updates_temperature :
    (fetchData (.httpResponse 200 "<span id=\"temperature\">99</span>") (initialDisplay "72" "15")).logged = true ∧
    (fetchData (.httpResponse 200 "<span id=\"temperature\">99</span>") (initialDisplay "72" "15")).state.temperature ≠ (initialDisplay "72" "15").temperature := by
  decide

/-- C1 amended: no exception escapes a refresh cycle (`fetchData` is a
total function and the `.catch` of line 74 is what `logged` records),
and a failing cycle preserves the display regions from the point of
failure on: the alert banner's text and visibility are always preserved
on failure; a cycle whose response lacks the temperature element
preserves all three regions, and one whose response lacks the distance
element preserves the distance; a network-error cycle preserves
everything.  Regions already written before the throw (in the statement
order temperature, then distance) do change. -/
theorem failure_preserves_state_amended (status : Nat) (body : String)
    (s : DisplayState)
    (hfail : (fetchData (.httpResponse status body) s).logged = true) :
    (fetchData (.httpResponse status body) s).state.alertText = s.alertText ∧
    (fetchData (.httpResponse status body) s).state.alertDisplay = s.alertDisplay ∧
    ((parseDoc body).temperature = none →
      (fetchData (.httpResponse status body) s).state = s) ∧
    ((parseDoc body).distance = none →
      (fetchData (.httpResponse status body) s).state.distance = s.distance) ∧
    (fetchData .networkError s).state = s ∧
    (fetchData .networkError s).logged = true := by
  rcases hT : (parseDoc body).temperature with _ | t
  · simp [fetchData, updateFromDoc, hT]
  · rcases hD : (parseDoc body).distance with _ | d
    · simp [fetchData, updateFromDoc, hT, hD]
    · rcases hA : (parseDoc body).alertMessage with _ | m
      · simp [fetchData, updateFromDoc, hT, hD, hA]
      · exfalso
        revert hfail
        by_cases hm : jsTrim m ≠ "" <;>
          simp [fetchData, updateFromDoc, hT, hD, hA, hm]

/-- Witness for C1 (amended): a response lacking all three elements. -/
theorem failure_preserves_state_amended_witness :
    (fetchData (.httpResponse 200 "hello") ⟨"72", "15", "old", "block"⟩).state.alertText = (DisplayState.mk "72" "15" "old" "block").alertText ∧
    (fetchData (.httpResponse 200 "hello") ⟨"72", "15", "old", "block"⟩).state.alertDisplay = (DisplayState.mk "72" "15" "old" "block").alertDisplay ∧
    ((parseDoc "hello").temperature = none →
      (fetchData (.httpResponse 200 "hello") ⟨"72", "15", "old", "block"⟩).state = ⟨"72", "15", "old", "block"⟩) ∧
    ((parseDoc "hello").distance = none →
      (fetchData (.httpResponse 200 "hello") ⟨"72", "15", "old", "block"⟩).state.distance = (DisplayState.mk "72" "15" "old" "block").distance) ∧
    (fetchData .networkError ⟨"72", "15", "old", "block"⟩).state = ⟨"72", "15", "old", "block"⟩ ∧
    (fetchData .networkError ⟨"72", "15", "old", "block"⟩).logged = true :=
  failure_preserves_state_amended 200 "hello" ⟨"72", "15", "old", "block"⟩ (by decide)

/-- C8: the DOM writes of one refresh cycle occur in the fixed statement
order of lines 61-72 — temperature, then distance, then the alert
element (its text before its visibility) — and for a body holding
temperature and distance elements but no `alertMessage` element, the
cycle first updates the two on-screen readings, then throws on the
missing element; the throw is caught by the `.catch` of line 74 and
logged, leaving the alert region untouched. -/
theorem write_order (r : FetchResult) (s : DisplayState) :
    ((fetchData r s).writes.map writeRank).Sorted (· < ·) ∧
    ((fetchData (.httpResponse 200 "<span id=\"temperature\">72</span><span id=\"distance\">15</span>") s).writes =
      [.setTemperature "72", .setDistance "15"] ∧
     (fetchData (.httpResponse 200 "<span id=\"temperature\">72</span><span id=\"distance\">15</span>") s).logged = true ∧
     (fetchData (.httpResponse 200 "<span id=\"temperature\">72</span><span id=\"distance\">15</span>") s).state.temperature = "72" ∧
     (fetchData (.httpResponse 200 "<span id=\"temperature\">72</span><span id=\"distance\">15</span>") s).state.distance = "15" ∧
     (fetchData (.httpResponse 200 "<span id=\"temperature\">72</span><span id=\"distance\">15</span>") s).state.alertText = s.alertText ∧
     (fetchData (.httpResponse 200 "<span id=\"temperature\">72</span><span id=\"distance\">15</span>") s).state.alertDisplay = s.alertDisplay) := by
  constructor
  · rcases r with _ | ⟨status, body⟩
    · simp [fetchData]
    · rcases hT : (parseDoc body).temperature with _ | t <;>
        [skip; rcases hD : (parseDoc body).distance with _ | d] <;>
        [skip; skip; rcases hA : (parseDoc body).alertMessage with _ | m]
      · simp [fetchData, updateFromDoc, hT]
      · simp [fetchData, updateFromDoc, hT, hD, writeRank]
      · simp [fetchData, updateFromDoc, hT, hD, hA, writeRank]
      · by_cases hm : jsTrim m ≠ "" <;>
          simp [fetchData, updateFromDoc, hT, hD, hA, hm, writeRank]
  · have hdoc : parseDoc "<span id=\"temperature\">72</span><span id=\"distance\">15</span>" =
        ⟨some "72", some "15", none⟩ := by decide
    simp [fetchData, updateFromDoc, hdoc]

set_option maxRecDepth 8192 in
/-- C9: every document produced from the template — whatever values the
server substitutes for the three tokens — contains the `#alertMessage`
div's opening tag with its inline `style="display: none;"` (line 94),
the distinct `#alertBox` banner div (line 85), and the `.alert-box` CSS
rule whose body sets `display: none;` (lines 39-48); the two identifiers
differ, and in the initially served display state the alert banner is
not visible and holds no text — so the raw alert text, sitting inside an
inline-hidden div, is never rendered directly, and before any refresh
cycle no alert shows. -/
theorem static_alert_markup (t d a : String) :
    (∃ u v, renderPage t d a = u ++ alertMsgOpen ++ v) ∧
    (∃ u v, renderPage t d a = u ++ alertBoxDiv ++ v) ∧
    (∃ u v, renderPage t d a = u ++ cssAlertBoxRule ++ v) ∧
    alertMsgOpen =
      "<div id=\"alertMessage\" " ++ "style=\"display: none;\"" ++ ">" ∧
    alertBoxDiv =
      "<div class=\"alert-box\" " ++ "id=\"alertBox\"" ++ "></div>" ∧
    (∃ u v, cssAlertBoxRule = u ++ "display: none;" ++ v) ∧
    "alertBox" ≠ "alertMessage" ∧
    alertVisible (initialDisplay t d) = false ∧
    (initialDisplay t d).alertText = "" := by
  refine ⟨⟨pageA ++ cssAlertBoxRule ++ pageB ++ alertBoxDiv ++ pageC ++ t
      ++ pageD ++ d ++ pageE, a ++ pageF, ?_⟩,
    ⟨pageA ++ cssAlertBoxRule ++ pageB,
      pageC ++ t ++ pageD ++ d ++ pageE ++ alertMsgOpen ++ a ++ pageF, ?_⟩,
    ⟨pageA, pageB ++ alertBoxDiv ++ pageC ++ t ++ pageD ++ d ++ pageE
      ++ alertMsgOpen ++ a ++ pageF, ?_⟩,
    by decide, by decide,
    ⟨".alert-box \x7b\n            ",
     "\n            color: white;\n            background-color: red;\n            padding: 15px;\n            font-size: 1.2em;\n            font-weight: bold;\n            margin: 20px;\n            border-radius: 5px;\n        \x7d", by decide⟩,
    by decide, rfl, rfl⟩ <;>
  simp [renderPage, String.append_assoc]

end Webserver
